import Mathlib

/-!
Verification of the Test Execution and Result Normalization Engine of the
QAaaS repository (agents: UnitTestAgent, IntegrationAgent, plus the
supervised process runner embedded in IntegrationAgent).

Shallow embedding notes, applying uniformly below:

* JavaScript strings are modelled as `List Char` (`Str`), and the handful of
  regular expressions used by the source are modelled by specialized
  matchers.  Every regex in the source has the property that each greedy
  quantifier (`\d+`, `\s+`, `[\w.]+`, ...) is followed by a character that
  cannot belong to the quantified class, so greedy maximal munch without
  general backtracking coincides with the JavaScript leftmost-match
  semantics; the two places where limited backtracking is possible (the
  Rust summary regex and the `\s+(.+)` marker-name regexes) are modelled
  with their exact two-candidate backtracking, justified in comments.
* JavaScript `\s` also contains rare non-ASCII whitespace; the model uses
  the ASCII whitespace characters, which is what every test-runner output
  contains.  `\w` is exactly [A-Za-z0-9_], as in JavaScript.
* Counters are modelled as `Int` because one parser computes
  `passed = total - failed - skipped`, which can be negative in JavaScript.
* Fields holding wall-clock data (`timestamp`, `summary.duration`,
  per-case `duration`) and the per-run `logFile`/`screenshots` bookkeeping
  are outside the model: no claim mentions them and they are floating
  point/side-effect values.
* `JSON.parse` (an external ECMAScript routine) is modelled as an oracle
  argument of `Option` type: `none` models the situation in which the
  enclosing try/catch of the source is triggered (parse failure or a
  field-access TypeError on an unexpected shape), `some v` a successful
  structured decode.
* The filesystem is modelled as the listing of the repository root plus a
  predicate for `fs.existsSync` probes and the decoded manifest contents.
* Asynchronous settlement of the process runner is modelled by one
  `ProcEvent` (the first settling event: timeout timer, close event, or
  spawn error) together with the stdout/stderr chunks received before it;
  the source clears the timer and settles exactly once in each handler.
-/

/-! ## String infrastructure -/

/-- JavaScript strings are modelled as lists of characters. -/
abbrev Str := List Char

/-- Shorthand turning a Lean string literal into the model type. -/
def str (s : String) : Str := s.data

/-- ASCII whitespace, the model of the regex class backslash-s. -/
def isWsC (c : Char) : Bool :=
  c = ' ' || c = '\t' || c = '\n' || c = '\r' || c = '\x0b' || c = '\x0c'

/-- The regex class backslash-w, exactly [A-Za-z0-9_]. -/
def isWordC (c : Char) : Bool := c.isAlphanum || c = '_'

/-- The class [backslash-w :] used by the Rust test-name regex. -/
def isWordColonC (c : Char) : Bool := isWordC c || c = ':'

/-- The class [backslash-w .] used by the pytest test-name regex. -/
def isWordDotC (c : Char) : Bool := isWordC c || c = '.'

/-- Characters matched by the regex dot (anything except a line terminator;
the rare U+2028 and U+2029 terminators are outside the model). -/
def nonTermC (c : Char) : Bool := !(c = '\n' || c = '\r')

/-- Numeric value of a digit run, the model of parseInt on a match. -/
def natOfDigits (s : Str) : Nat :=
  s.foldl (fun a c => a * 10 + (c.toNat - '0'.toNat)) 0

/-- JavaScript String.prototype.includes as a substring test. -/
def includesStr (pat : Str) : Str → Bool
  | [] => pat.isEmpty
  | s@(_ :: r) => pat.isPrefixOf s || includesStr pat r

/-- JavaScript split on a newline character. -/
def splitOnNl : Str → List Str
  | [] => [[]]
  | c :: r =>
    if c = '\n' then [] :: splitOnNl r
    else
      match splitOnNl r with
      | l :: ls => (c :: l) :: ls
      | [] => [[c]]

/-- JavaScript String.prototype.trim (whitespace stripped from both ends). -/
def trimStr (s : Str) : Str :=
  ((s.dropWhile isWsC).reverse.dropWhile isWsC).reverse

/-- ASCII lowercase map, the model of case-insensitive matching. -/
def toLowerStr (s : Str) : Str := s.map Char.toLower

/-- JavaScript String.prototype.replace with a plain-string pattern:
only the first occurrence is replaced. -/
def replFirstAux (pat rep : Str) : Str → Str
  | [] => []
  | c :: r =>
    if pat.isPrefixOf (c :: r) then rep ++ (c :: r).drop pat.length
    else c :: replFirstAux pat rep r

/-- JavaScript replace: an empty pattern inserts the replacement in front. -/
def replaceFirst (pat rep s : Str) : Str :=
  if pat.isEmpty then rep ++ s else replFirstAux pat rep s

/-- Prefix of a string before the first occurrence of a double colon, the
model of split on a double colon taking component zero. -/
def splitBeforeColons : Str → Str
  | [] => []
  | c :: r =>
    if (str "::").isPrefixOf (c :: r) then []
    else c :: splitBeforeColons r

/-- Prefix before the first dot, the model of split on a dot taking
component zero. -/
def splitBeforeDot (s : Str) : Str := s.takeWhile (fun c => c ≠ '.')

/-- Decimal rendering of a number, as interpolated into template strings. -/
def natToStr (n : Nat) : Str := Nat.toDigits 10 n

/-! ## A tiny pattern language for the regexes of the source

Each source regex that extracts counts is a sequence of literal pieces,
captured digit runs, and whitespace runs.  In every such regex a digit or
whitespace run is followed by a character outside its class, so matching
with maximal munch and no backtracking is exactly the JavaScript
semantics.  `findToksRest` scans for the leftmost match like the regex
engine does. -/

/-- One token of a count-extraction regex. -/
inductive Tok where
  | lit : Str → Tok
  | num : Tok
  | ws : Tok

/-- Match a token sequence at the start of the string, returning the
captured digit runs (as numbers, in order) and the rest of the string. -/
def matchToksHere : List Tok → Str → Option (List Nat × Str)
  | [], s => some ([], s)
  | Tok.lit l :: ts, s =>
    if l.isPrefixOf s then matchToksHere ts (s.drop l.length) else none
  | Tok.num :: ts, s =>
    let ds := s.takeWhile Char.isDigit
    if ds.isEmpty then none
    else
      match matchToksHere ts (s.drop ds.length) with
      | some (ns, r) => some (natOfDigits ds :: ns, r)
      | none => none
  | Tok.ws :: ts, s =>
    let ds := s.takeWhile isWsC
    if ds.isEmpty then none
    else matchToksHere ts (s.drop ds.length)

/-- Leftmost match of a token sequence anywhere in the string, with the
rest of the string after the match.  All token sequences used below need
at least one character, so the empty string never matches. -/
def findToksRest (ts : List Tok) : Str → Option (List Nat × Str)
  | [] => none
  | c :: r =>
    match matchToksHere ts (c :: r) with
    | some res => some res
    | none => findToksRest ts r

/-- Leftmost match, captures only. -/
def findToks (ts : List Tok) (s : Str) : Option (List Nat) :=
  (findToksRest ts s).map Prod.fst

/-- First capture of the leftmost match, with the JavaScript-side default
of zero when the pattern is absent (absence of a pattern yields zero). -/
def optNumInt (ts : List Tok) (s : Str) : Int :=
  match findToks ts s with
  | some (n :: _) => Int.ofNat n
  | _ => 0


/-! ## Marker-name extraction

Several parsers extract a case name with a regex of the shape
`[markers]\s+(.+)`.  The whitespace run is greedy; if nothing follows it,
the engine backtracks one whitespace character at a time until the dot
class (which excludes line terminators) can match, so the capture starts
at the last whitespace position whose character is not a terminator. -/

/-- Greedy capture of the dot-plus tail: the maximal run of
non-terminator characters. -/
def dotPlusFrom (s : Str) : Str := s.takeWhile nonTermC

/-- Largest backtrack position inside a whitespace run at which the dot
class can still match (position at least one, character not a line
terminator). -/
def wsBacktrackPos (w : Str) : Option Nat :=
  ((List.range w.length).filter
    (fun j => decide (1 ≤ j) && nonTermC (w.getD j '\n'))).getLast?

/-- Capture of `\s+(.+)` against the text following a marker character,
with the backtracking described above; none when the regex cannot match
at this marker. -/
def markerCapture (r : Str) : Option Str :=
  let w := r.takeWhile isWsC
  let rest := r.drop w.length
  if w.isEmpty then none
  else if !rest.isEmpty then some (dotPlusFrom rest)
  else
    match wsBacktrackPos w with
    | some j => some (dotPlusFrom (w.drop j))
    | none => none

/-- Leftmost position where a marker character is followed by a matching
`\s+(.+)` tail; returns the capture. -/
def findMarkerCapture (markers : List Char) : Str → Option Str
  | [] => none
  | c :: r =>
    if markers.contains c then
      match markerCapture r with
      | some cap => some cap
      | none => findMarkerCapture markers r
    else findMarkerCapture markers r

/-- Case name produced by the marker regexes: the trimmed capture, or the
trimmed line when the regex does not match. -/
def markerName (markers : List Char) (line : Str) : Str :=
  match findMarkerCapture markers line with
  | some cap => trimStr cap
  | none => trimStr line

/-- Leftmost match of the pytest name regex (a word-dot run, a double
colon, a word run); returns the whole matched text. -/
def pytestNameSearch : Str → Option Str
  | [] => none
  | c :: r =>
    if isWordDotC c then
      let run := (c :: r).takeWhile isWordDotC
      let t := (c :: r).drop run.length
      if (str "::").isPrefixOf t then
        let run2 := (t.drop 2).takeWhile isWordC
        if run2.isEmpty then pytestNameSearch r
        else some (run ++ str "::" ++ run2)
      else pytestNameSearch r
    else pytestNameSearch r

/-! ## Canonical result schema -/

/-- Summary counters of a TestRunResult.  The wall-clock duration field of
the source is outside the model. -/
structure Summary where
  total : Int
  passed : Int
  failed : Int
  skipped : Int
  deriving DecidableEq

/-- One test case of the canonical schema.  The per-case duration, always
zero or a float copied from decoded JSON, is outside the model. -/
structure TestCase where
  name : Str
  suite : Str
  status : Str
  failureMessages : List Str
  deriving DecidableEq

/-- The canonical TestRunResult schema.  The timestamp field (wall clock)
is outside the model; the optional error field set by the dispatcher
catch blocks is omitted because every parser in the model is total, which
is exactly why those catch blocks are unreachable. -/
structure TestRunResult where
  success : Bool
  summary : Summary
  details : List TestCase
  rawOutput : Str
  rawError : Str
  deriving DecidableEq

/-- The standardResult initializer shared by both dispatchers. -/
def initTR (stdout stderr : Str) : TestRunResult :=
  { success := false
    summary := ⟨0, 0, 0, 0⟩
    details := []
    rawOutput := stdout
    rawError := stderr }

/-- The combined output both agents parse: stdout, a newline, stderr. -/
def outOf (stdout stderr : Str) : Str := stdout ++ str "\n" ++ stderr

/-! ## Decoded JSON oracles -/

/-- One assertion of a decoded Jest JSON report. -/
structure JestAssertion where
  title : Str
  status : Str
  failureMessages : List Str
  deriving DecidableEq

/-- One suite of a decoded Jest JSON report. -/
structure JestSuiteResult where
  name : Str
  assertionResults : List JestAssertion
  deriving DecidableEq

/-- A decoded Jest JSON report, as read by the unit agent. -/
structure JestJson where
  success : Bool
  numTotalTests : Int
  numPassedTests : Int
  numFailedTests : Int
  numPendingTests : Int
  testResults : List JestSuiteResult
  deriving DecidableEq

/-- One test of a decoded Mocha JSON report; errMsg models the optional
err.message of a failing test. -/
structure MochaTest where
  title : Str
  fullTitle : Str
  errMsg : Option Str
  deriving DecidableEq

/-- A decoded Mocha JSON report, as read by the unit agent. -/
structure MochaJson where
  statsTests : Int
  statsPasses : Int
  statsFailures : Int
  statsPending : Int
  passes : List MochaTest
  failures : List MochaTest
  pending : List MochaTest
  deriving DecidableEq

/-- Decoded package manifest: the merged keys of dependencies and
devDependencies, and the keys of the scripts table. -/
structure PackageJson where
  deps : List Str
  scripts : List Str
  deriving DecidableEq

/-- The filesystem as seen by one agent run: the listing of the
repository root, the existsSync predicate for probed paths, the manifest
decode oracle (none models a JSON.parse throw), the contents of pom.xml,
and the success of the pip-list probe for pytest. -/
structure RepoFs where
  entries : List Str
  fileExists : Str → Bool
  packageJson : Option PackageJson
  pomXml : Str
  pipHasPytest : Bool

/-- Placeholder for the engine-specific message of a JSON.parse
SyntaxError; no claim depends on its exact text. -/
def jsonParseErrorMsg : Str := str "Unexpected token in JSON"

/-! ## Supervised process runner (IntegrationAgent executeCommand) -/

/-- First settling event of a spawned process: the timeout timer firing,
the close event with its exit code (null for signal termination), or a
spawn error with its message. -/
inductive ProcEvent where
  | timeout : ProcEvent
  | close : Option Nat → ProcEvent
  | spawnError : Str → ProcEvent
  deriving DecidableEq

/-- What the runner resolves with: the buffered stdout and stderr. -/
structure ExecOutcome where
  stdout : Str
  stderr : Str
  deriving DecidableEq

/-- Buffer accumulation of the data handlers: each chunk is appended to
the in-memory buffer, with no bound and no truncation. -/
def concatChunks (cs : List Str) : Str := cs.foldl (fun a c => a ++ c) []

/-- Rendering of the close code inside the failure template string. -/
def codeToStr : Option Nat → Str
  | none => str "null"
  | some n => natToStr n

/-- The settlement logic of IntegrationAgent executeCommand: on timeout
the process is killed and the promise rejected; on close the promise is
rejected unless the code is zero; on a spawn error the promise is
rejected with that error.  The chunks are those received before the
settling event. -/
def int_executeCommand (command : Str) (timeoutMs : Nat)
    (outChunks errChunks : List Str) (ev : ProcEvent) :
    Except Str ExecOutcome :=
  match ev with
  | ProcEvent.timeout =>
    Except.error (str "Command timed out after " ++ natToStr timeoutMs ++ str "ms: " ++ command)
  | ProcEvent.close code =>
    if code = some 0 then Except.ok ⟨concatChunks outChunks, concatChunks errChunks⟩
    else Except.error (str "Command failed with exit code " ++ codeToStr code ++ str ": " ++ command)
  | ProcEvent.spawnError msg => Except.error msg

/-! ## Generic fallback parser (both agents)

The two copies differ only in the keyword alternation of the line test
(the integration copy also accepts the scenario keyword), so the common
shape is factored over the line test. -/

/-- Outcome keywords of the generic line test (case sensitive). -/
def genericOutcomeWord (line : Str) : Bool :=
  includesStr (str "pass") line || includesStr (str "fail") line ||
    includesStr (str "error") line

/-- Keyword test of the unit-agent generic parser (case insensitive). -/
def unitGenericKw (line : Str) : Bool :=
  let l := toLowerStr line
  includesStr (str "test") l || includesStr (str "spec") l ||
    includesStr (str "should") l || includesStr (str "it ") l

/-- Keyword test of the integration-agent generic parser: the unit list
plus the scenario keyword. -/
def intGenericKw (line : Str) : Bool :=
  unitGenericKw line || includesStr (str "scenario") (toLowerStr line)

/-- A line counted by the generic parser: a keyword plus an outcome word. -/
def genericHit (kw : Str → Bool) (line : Str) : Bool :=
  kw line && genericOutcomeWord line

/-- Case synthesized by the generic parser from a counted line. -/
def genericCase (line : Str) : TestCase :=
  let status := if includesStr (str "pass") line then str "passed" else str "failed"
  { name := trimStr line
    suite := str "unknown"
    status := status
    failureMessages := if status = str "failed" then [line] else [] }

/-- Common shape of the generic parsers: token-based success, a count of
test-looking lines (at least one test assumed), and pass/fail counts
derived from the success flag when exact counts are unknown. -/
def genericParseWith (kw : Str → Bool) (stdout stderr : Str)
    (standardResult : TestRunResult) : TestRunResult :=
  let output := outOf stdout stderr
  let success := !(includesStr (str "FAIL") output || includesStr (str "ERROR") output ||
    includesStr (str "FAILURE") output || includesStr (str "Exception") output ||
    !stderr.isEmpty)
  let hits := (splitOnNl output).filter (genericHit kw)
  let total : Int := Int.ofNat (if hits.length = 0 then 1 else hits.length)
  { standardResult with
    success := success
    summary :=
      if success then
        ⟨total, total, standardResult.summary.failed, standardResult.summary.skipped⟩
      else
        ⟨total, total - 1, 1, standardResult.summary.skipped⟩
    details := standardResult.details ++ hits.map genericCase }

/-- UnitTestAgent parseGenericResults. -/
def unit_parseGenericResults (stdout stderr : Str) (standardResult : TestRunResult) :
    TestRunResult :=
  genericParseWith unitGenericKw stdout stderr standardResult

/-- IntegrationAgent parseGenericResults. -/
def int_parseGenericResults (stdout stderr : Str) (standardResult : TestRunResult) :
    TestRunResult :=
  genericParseWith intGenericKw stdout stderr standardResult

/-! ## Unit-agent format parsers -/

/-- UnitTestAgent parseJestResults: on a successful JSON decode, the
summary and details come from the report; when the decode (or a field
access on it) throws, the catch falls back to the generic parser with an
empty stderr argument. -/
def unit_parseJestResults (jp : Option JestJson) (stdout : Str)
    (standardResult : TestRunResult) : TestRunResult :=
  match jp with
  | none => unit_parseGenericResults stdout [] standardResult
  | some j =>
    { standardResult with
      success := j.success
      summary := ⟨j.numTotalTests, j.numPassedTests, j.numFailedTests, j.numPendingTests⟩
      details := standardResult.details ++
        (j.testResults.map (fun su =>
          su.assertionResults.map (fun a =>
            { name := a.title, suite := su.name, status := a.status,
              failureMessages := a.failureMessages }))).flatten }

/-- UnitTestAgent processMochaTests: each test becomes a case whose suite
is the full title with the first occurrence of the title removed. -/
def processMochaTests (tests : List MochaTest) (status : Str) : List TestCase :=
  tests.map fun t =>
    { name := t.title
      suite := trimStr (replaceFirst t.title [] t.fullTitle)
      status := status
      failureMessages := match t.errMsg with | some m => [m] | none => [] }

/-- UnitTestAgent parseMochaResults, with the same JSON-decode oracle and
generic fallback as the Jest parser. -/
def unit_parseMochaResults (mp : Option MochaJson) (stdout : Str)
    (standardResult : TestRunResult) : TestRunResult :=
  match mp with
  | none => unit_parseGenericResults stdout [] standardResult
  | some m =>
    { standardResult with
      success := m.statsFailures == 0
      summary := ⟨m.statsTests, m.statsPasses, m.statsFailures, m.statsPending⟩
      details := standardResult.details ++
        processMochaTests m.passes (str "passed") ++
        processMochaTests m.failures (str "failed") ++
        processMochaTests m.pending (str "skipped") }

/-- Pytest count extractors shared by the unit and integration copies of
the Python parser; a missing pattern yields zero. -/
def pyTotal (output : Str) : Int :=
  optNumInt [Tok.lit (str "collected "), Tok.num, Tok.lit (str " items")] output

/-- Count matched by the passed pattern. -/
def pyPassed (output : Str) : Int := optNumInt [Tok.num, Tok.lit (str " passed")] output

/-- Count matched by the failed pattern. -/
def pyFailed (output : Str) : Int := optNumInt [Tok.num, Tok.lit (str " failed")] output

/-- Count matched by the skipped pattern. -/
def pySkipped (output : Str) : Int := optNumInt [Tok.num, Tok.lit (str " skipped")] output

/-- A detail line of the Python parsers. -/
def pyDetailLine (line : Str) : Bool :=
  includesStr (str "PASSED") line || includesStr (str "FAILED") line ||
    includesStr (str "SKIPPED") line

/-- Case synthesized from a Python detail line. -/
def pyCase (line : Str) : TestCase :=
  let status :=
    if includesStr (str "PASSED") line then str "passed"
    else if includesStr (str "FAILED") line then str "failed"
    else str "skipped"
  let name := match pytestNameSearch line with | some n => n | none => trimStr line
  { name := name
    suite := splitBeforeColons name
    status := status
    failureMessages := if status = str "failed" then [line] else [] }

/-- UnitTestAgent parsePythonResults: every count comes from its own
regex (the total from the collected-items line), success is the absence
of a failed count, and details are scanned from marker lines. -/
def unit_parsePythonResults (stdout stderr : Str) (standardResult : TestRunResult) :
    TestRunResult :=
  let output := outOf stdout stderr
  let f := pyFailed output
  { standardResult with
    success := f == 0
    summary := ⟨pyTotal output, pyPassed output, f, pySkipped output⟩
    details := standardResult.details ++
      ((splitOnNl output).filter pyDetailLine).map pyCase }

/-- Token sequence of the Maven surefire summary regex. -/
def javaToks : List Tok :=
  [Tok.lit (str "Tests run: "), Tok.num, Tok.lit (str ", Failures: "), Tok.num,
   Tok.lit (str ", Errors: "), Tok.num, Tok.lit (str ", Skipped: "), Tok.num]

/-- Summary produced by the Java parsers: failures and errors are summed
into failed, passed is total minus failed minus skipped (possibly
negative on inconsistent output), and a missing summary line leaves the
base counters. -/
def javaSummary (output : Str) (base : Summary) : Summary :=
  match findToks javaToks output with
  | some [t, fl, er, sk] =>
    let failed : Int := Int.ofNat fl + Int.ofNat er
    ⟨Int.ofNat t, Int.ofNat t - failed - Int.ofNat sk, failed, Int.ofNat sk⟩
  | _ => base

/-- UnitTestAgent parseJavaResults (no detail extraction in this copy). -/
def unit_parseJavaResults (stdout stderr : Str) (standardResult : TestRunResult) :
    TestRunResult :=
  let output := outOf stdout stderr
  let summary := javaSummary output standardResult.summary
  { standardResult with
    success := summary.failed == 0
    summary := summary }

/-- Tokens after the word and dot of the Rust summary regex. -/
def rustTailToks : List Tok :=
  [Tok.lit (str " "), Tok.num, Tok.lit (str " passed; "), Tok.num,
   Tok.lit (str " failed; "), Tok.num, Tok.lit (str " ignored")]

/-- Backtracked attempt of the Rust summary regex: the word run gives up
its last character to the regex dot (a word character is never a line
terminator), so the tail tokens must match directly after the run. -/
def rustBack (w t : Str) : Option (Str × Nat × Nat × Nat) :=
  if 2 ≤ w.length then
    match matchToksHere rustTailToks t with
    | some ([a, b, k], _) => some (w.take (w.length - 1), a, b, k)
    | _ => none
  else none

/-- Matching of the Rust summary regex just after its literal prefix: a
greedy word run, the regex dot, then the count tail.  Because the dot is
followed by a space and word characters are never spaces, only the
maximal word run (dot eats the next character) and the maximal run minus
one character (dot eats the last word character) can succeed, tried in
that order. -/
def rustWordAndTail (s : Str) : Option (Str × Nat × Nat × Nat) :=
  let w := s.takeWhile isWordC
  let t := s.drop w.length
  if w.isEmpty then none
  else
    match t with
    | c :: t2 =>
      if nonTermC c then
        match matchToksHere rustTailToks t2 with
        | some ([a, b, k], _) => some (w, a, b, k)
        | _ => rustBack w t
      else rustBack w t
    | [] => rustBack w t

/-- Leftmost match of the Rust summary regex: the pattern starts with a
literal, so candidate positions are its occurrences. -/
def rustSummarySearch : Str → Option (Str × Nat × Nat × Nat)
  | [] => none
  | c :: r =>
    if (str "test result: ").isPrefixOf (c :: r) then
      match rustWordAndTail ((c :: r).drop 13) with
      | some res => some res
      | none => rustSummarySearch r
    else rustSummarySearch r

/-- A detail line of the Rust parser. -/
def rustDetailLine (line : Str) : Bool :=
  includesStr (str "test ") line &&
    (includesStr (str " ... ok") line || includesStr (str " ... FAILED") line ||
      includesStr (str " ... ignored") line)

/-- Leftmost capture of the Rust test-name regex (the run of word or
colon characters after the literal). -/
def rustNameSearch : Str → Option Str
  | [] => none
  | c :: r =>
    if (str "test ").isPrefixOf (c :: r) then
      let run := ((c :: r).drop 5).takeWhile isWordColonC
      if run.isEmpty then rustNameSearch r else some run
    else rustNameSearch r

/-- Case synthesized from a Rust detail line. -/
def rustCase (line : Str) : TestCase :=
  let status :=
    if includesStr (str " ... ok") line then str "passed"
    else if includesStr (str " ... FAILED") line then str "failed"
    else str "skipped"
  let name := match rustNameSearch line with | some n => n | none => trimStr line
  { name := name
    suite := splitBeforeColons name
    status := status
    failureMessages := if status = str "failed" then [line] else [] }

/-- UnitTestAgent parseRustResults: the summary line carries the verdict
word and the three counts, total is their sum; a missing summary line
leaves success false and the counters at zero. -/
def unit_parseRustResults (stdout stderr : Str) (standardResult : TestRunResult) :
    TestRunResult :=
  let output := outOf stdout stderr
  let base :=
    match rustSummarySearch output with
    | some (res, p, f, ig) =>
      { standardResult with
        success := res == str "ok"
        summary := ⟨Int.ofNat p + Int.ofNat f + Int.ofNat ig,
          Int.ofNat p, Int.ofNat f, Int.ofNat ig⟩ }
    | none => standardResult
  { base with
    details := base.details ++
      ((splitOnNl output).filter rustDetailLine).map rustCase }

/-- One alternative of the Go test-line regex at a given position: its
literal then at least one word character. -/
def goCheck (pre s : Str) : Bool :=
  pre.isPrefixOf s && isWordC ((s.drop pre.length).headD '\n')

/-- The Go test-line regex (a PASS, FAIL or SKIP marker followed by a
test identifier) anywhere in the line. -/
def goLineMatch : Str → Bool
  | [] => false
  | c :: r =>
    (goCheck (str "--- PASS: Test") (c :: r) || goCheck (str "--- FAIL: Test") (c :: r) ||
      goCheck (str "--- SKIP: Test") (c :: r)) || goLineMatch r

/-- Leftmost capture of the Go test-name regex: the word run after the
first marker literal (this regex does not require the Test prefix). -/
def goNameSearch : Str → Option Str
  | [] => none
  | c :: r =>
    let t :=
      if (str "--- PASS: ").isPrefixOf (c :: r) then some ((c :: r).drop 10)
      else if (str "--- FAIL: ").isPrefixOf (c :: r) then some ((c :: r).drop 10)
      else if (str "--- SKIP: ").isPrefixOf (c :: r) then some ((c :: r).drop 10)
      else none
    match t with
    | some t2 =>
      let run := t2.takeWhile isWordC
      if run.isEmpty then goNameSearch r else some run
    | none => goNameSearch r

/-- Case synthesized from a Go detail line. -/
def goCase (line : Str) : TestCase :=
  let status :=
    if includesStr (str "--- PASS") line then str "passed"
    else if includesStr (str "--- FAIL") line then str "failed"
    else str "skipped"
  let name := match goNameSearch line with | some n => n | none => trimStr line
  { name := name
    suite := str "go_tests"
    status := status
    failureMessages := if status = str "failed" then [line] else [] }

/-- UnitTestAgent parseGoResults.  In the source, success is the
JavaScript truthiness of the PASS match conjoined with the negated FAIL
match, which as a boolean is exactly this conjunction. -/
def unit_parseGoResults (stdout stderr : Str) (standardResult : TestRunResult) :
    TestRunResult :=
  let output := outOf stdout stderr
  let testLines := (splitOnNl output).filter goLineMatch
  { standardResult with
    success := includesStr (str "PASS") output && !includesStr (str "FAIL") output
    summary := ⟨Int.ofNat testLines.length,
      Int.ofNat (testLines.filter (fun l => includesStr (str "--- PASS") l)).length,
      Int.ofNat (testLines.filter (fun l => includesStr (str "--- FAIL") l)).length,
      Int.ofNat (testLines.filter (fun l => includesStr (str "--- SKIP") l)).length⟩
    details := standardResult.details ++ testLines.map goCase }

/-- The single skipped case synthesized for an empty repository by the
unit agent. -/
def emptyUnitCase : TestCase :=
  { name := str "repository-empty-check"
    suite := str "system"
    status := str "skipped"
    failureMessages := [str "Repository is empty, no tests to run"] }

/-- UnitTestAgent parseTestResults: the empty-repository branch comes
before the format dispatch; unknown tags (including node, karma,
unittest, unknown) fall to the generic parser.  The try/catch of the
source is unreachable because every branch is total. -/
def unit_parseTestResults (jp : Option JestJson) (mp : Option MochaJson)
    (stdout stderr : Str) (projectType : Str) : TestRunResult :=
  let standardResult := initTR stdout stderr
  if projectType = str "empty" then
    { standardResult with
      success := true
      summary := ⟨1, 0, 0, 1⟩
      details := standardResult.details ++ [emptyUnitCase] }
  else if projectType = str "jest" then unit_parseJestResults jp stdout standardResult
  else if projectType = str "mocha" then unit_parseMochaResults mp stdout standardResult
  else if projectType = str "pytest" || projectType = str "python" then
    unit_parsePythonResults stdout stderr standardResult
  else if projectType = str "maven" || projectType = str "gradle" then
    unit_parseJavaResults stdout stderr standardResult
  else if projectType = str "rust" then unit_parseRustResults stdout stderr standardResult
  else if projectType = str "go" then unit_parseGoResults stdout stderr standardResult
  else unit_parseGenericResults stdout stderr standardResult

/-! ## Integration-agent format parsers -/

/-- Cypress gate: the global match of the alternation (a count followed
by passing, or the bare words failing or pending) found anywhere. -/
def cypressGate (output : Str) : Bool :=
  (findToks [Tok.num, Tok.lit (str " passing")] output).isSome ||
    includesStr (str "failing") output || includesStr (str "pending") output

/-- Case synthesized from a Cypress or Playwright marker line. -/
def tickCase (suite : Str) (failMark : Char) (markers : List Char) (line : Str) :
    TestCase :=
  let status :=
    if line.contains '✓' then str "passed"
    else if line.contains failMark then str "failed"
    else str "skipped"
  { name := markerName markers line
    suite := suite
    status := status
    failureMessages := if status = str "failed" then [line] else [] }

/-- A Cypress or Playwright detail line. -/
def tickDetailLine (line : Str) : Bool :=
  line.contains '✓' || line.contains '✗' || includesStr (str "- ") line

/-- IntegrationAgent parseCypressResults.  Success is the negated
presence of the run-finished banner (as written in the source); the
counters are filled only when the gate alternation matches, and the
total is the sum of the three counts. -/
def int_parseCypressResults (stdout stderr : Str) (standardResult : TestRunResult) :
    TestRunResult :=
  let output := outOf stdout stderr
  let summary :=
    if cypressGate output then
      let p := optNumInt [Tok.num, Tok.lit (str " passing")] output
      let f := optNumInt [Tok.num, Tok.lit (str " failing")] output
      let sk := optNumInt [Tok.num, Tok.lit (str " pending")] output
      (⟨p + f + sk, p, f, sk⟩ : Summary)
    else standardResult.summary
  { standardResult with
    success := !includesStr (str "(Run Finished)") output
    summary := summary
    details := standardResult.details ++
      ((splitOnNl output).filter tickDetailLine).map
        (tickCase (str "cypress") '✗' ['✓', '✗', '-']) }

/-- IntegrationAgent parsePlaywrightResults: the leftmost passed count,
optionally followed by a slash-separated failed count; the total is
their sum and skipped is never set. -/
def int_parsePlaywrightResults (stdout stderr : Str) (standardResult : TestRunResult) :
    TestRunResult :=
  let output := outOf stdout stderr
  let summary :=
    match findToksRest [Tok.num, Tok.lit (str " passed")] output with
    | none => standardResult.summary
    | some (caps, rest) =>
      let p : Int := Int.ofNat (caps.headD 0)
      let f : Int :=
        match matchToksHere
          [Tok.ws, Tok.lit (str "/"), Tok.ws, Tok.num, Tok.lit (str " failed")] rest with
        | some (caps2, _) => Int.ofNat (caps2.headD 0)
        | none => 0
      (⟨p + f, p, f, standardResult.summary.skipped⟩ : Summary)
  { standardResult with
    success := includesStr (str "passed") output && !includesStr (str "failed") output
    summary := summary
    details := standardResult.details ++
      ((splitOnNl output).filter tickDetailLine).map
        (tickCase (str "playwright") '✗' ['✓', '✗', '-']) }

/-- Token sequence of the Jest text summary line. -/
def jestSummaryToks : List Tok :=
  [Tok.lit (str "Tests:"), Tok.ws, Tok.num, Tok.lit (str " passed,"), Tok.ws,
   Tok.num, Tok.lit (str " failed,"), Tok.ws, Tok.num, Tok.lit (str " total")]

/-- The three captures of the Jest text summary line, in source order
(passed, failed, total). -/
def jestSummary (output : Str) : Option (Nat × Nat × Nat) :=
  match findToks jestSummaryToks output with
  | some (a :: b :: c :: _) => some (a, b, c)
  | _ => none

/-- Total of the Jest summary line with the default of zero. -/
def jestTotalD (output : Str) : Int :=
  match jestSummary output with | some (_, _, c) => Int.ofNat c | none => 0

/-- Passed count of the Jest summary line with the default of zero. -/
def jestPassedD (output : Str) : Int :=
  match jestSummary output with | some (a, _, _) => Int.ofNat a | none => 0

/-- Failed count of the Jest summary line with the default of zero. -/
def jestFailedD (output : Str) : Int :=
  match jestSummary output with | some (_, b, _) => Int.ofNat b | none => 0

/-- The independent skipped match of the integration Jest parser. -/
def jestSkippedD (output : Str) : Int :=
  optNumInt [Tok.num, Tok.lit (str " skipped")] output

/-- A detail line of the integration Jest parser. -/
def jestDetailLine (line : Str) : Bool :=
  line.contains '✓' || line.contains '✕' || line.contains '○'

/-- Case synthesized from a Jest marker line. -/
def jestIntCase (line : Str) : TestCase :=
  let status :=
    if line.contains '✓' then str "passed"
    else if line.contains '✕' then str "failed"
    else str "skipped"
  { name := markerName ['✓', '✕', '○'] line
    suite := str "jest"
    status := status
    failureMessages := if status = str "failed" then [line] else [] }

/-- IntegrationAgent parseJestResults: success comes from the PASS and
FAIL tokens alone; the passed, failed and total counters come from the
text summary line when present, skipped from its own independent match. -/
def int_parseJestResults (stdout stderr : Str) (standardResult : TestRunResult) :
    TestRunResult :=
  let output := outOf stdout stderr
  let summary0 :=
    match jestSummary output with
    | some (a, b, c) =>
      { standardResult.summary with
        passed := Int.ofNat a, failed := Int.ofNat b, total := Int.ofNat c }
    | none => standardResult.summary
  let summary1 :=
    match findToks [Tok.num, Tok.lit (str " skipped")] output with
    | some (k :: _) => { summary0 with skipped := Int.ofNat k }
    | _ => summary0
  { standardResult with
    success := includesStr (str "PASS") output && !includesStr (str "FAIL") output
    summary := summary1
    details := standardResult.details ++
      ((splitOnNl output).filter jestDetailLine).map jestIntCase }

/-- The integration Mocha line filter: a whitespace character directly
followed by a marker, anywhere in the line. -/
def hasWsMarker (markers : List Char) : Str → Bool
  | [] => false
  | [_] => false
  | a :: b :: r => (isWsC a && markers.contains b) || hasWsMarker markers (b :: r)

/-- Case synthesized from an integration Mocha marker line. -/
def mochaIntCase (line : Str) : TestCase :=
  let status :=
    if line.contains '✓' then str "passed"
    else if line.contains '✖' then str "failed"
    else str "skipped"
  { name := markerName ['✓', '✖', '-'] line
    suite := str "mocha"
    status := status
    failureMessages := if status = str "failed" then [line] else [] }

/-- IntegrationAgent parseMochaResults: the three counts come from their
own patterns and the total is always their sum. -/
def int_parseMochaResults (stdout stderr : Str) (standardResult : TestRunResult) :
    TestRunResult :=
  let output := outOf stdout stderr
  let p := optNumInt [Tok.num, Tok.lit (str " passing")] output
  let f := optNumInt [Tok.num, Tok.lit (str " failing")] output
  let sk := optNumInt [Tok.num, Tok.lit (str " pending")] output
  { standardResult with
    success := !includesStr (str "failing") output
    summary := ⟨p + f + sk, p, f, sk⟩
    details := standardResult.details ++
      ((splitOnNl output).filter (hasWsMarker ['✓', '✖', '-'])).map mochaIntCase }

/-- IntegrationAgent parsePytestResults, the integration copy of the
Python parser (same counting logic and detail scan). -/
def int_parsePytestResults (stdout stderr : Str) (standardResult : TestRunResult) :
    TestRunResult :=
  let output := outOf stdout stderr
  let f := pyFailed output
  { standardResult with
    success := f == 0
    summary := ⟨pyTotal output, pyPassed output, f, pySkipped output⟩
    details := standardResult.details ++
      ((splitOnNl output).filter pyDetailLine).map pyCase }

/-- Token sequence of the Behave scenarios summary. -/
def behaveScenToks : List Tok :=
  [Tok.num, Tok.lit (str " scenarios passed, "), Tok.num, Tok.lit (str " failed, "),
   Tok.num, Tok.lit (str " skipped")]

/-- Token sequence of the Behave steps summary. -/
def behaveStepToks : List Tok :=
  [Tok.num, Tok.lit (str " steps passed, "), Tok.num, Tok.lit (str " failed, "),
   Tok.num, Tok.lit (str " skipped")]

/-- Status of a Behave scenario: failed when the output contains the
scenario header followed by an indented failure marker. -/
def behaveScenarioStatus (output name : Str) : Str :=
  if includesStr (str "Scenario: " ++ name ++ str "\n    ✗") output then str "failed"
  else str "passed"

/-- IntegrationAgent parseBehaveResults: scenario counts preferred over
step counts (the features match of the source is computed but never
used); features become info cases and scenarios pass or fail cases. -/
def int_parseBehaveResults (stdout stderr : Str) (standardResult : TestRunResult) :
    TestRunResult :=
  let output := outOf stdout stderr
  let summary :=
    match findToks behaveScenToks output with
    | some [p, f, sk] =>
      (⟨Int.ofNat p + Int.ofNat f + Int.ofNat sk, Int.ofNat p, Int.ofNat f, Int.ofNat sk⟩ : Summary)
    | _ =>
      match findToks behaveStepToks output with
      | some [p, f, sk] =>
        (⟨Int.ofNat p + Int.ofNat f + Int.ofNat sk, Int.ofNat p, Int.ofNat f, Int.ofNat sk⟩ : Summary)
      | _ => standardResult.summary
  let featureCases :=
    ((splitOnNl output).filter (fun l => (str "Feature:").isPrefixOf l)).map fun l =>
      ({ name := trimStr (replaceFirst (str "Feature:") [] l)
         suite := str "features", status := str "info", failureMessages := [] } : TestCase)
  let scenarioCases :=
    ((splitOnNl output).filter (fun l => (str "  Scenario:").isPrefixOf l)).map fun l =>
      let name := trimStr (replaceFirst (str "Scenario:") [] l)
      let status := behaveScenarioStatus output name
      ({ name := name, suite := str "scenarios", status := status,
         failureMessages := if status = str "failed" then [l] else [] } : TestCase)
  { standardResult with
    success := summary.failed == 0
    summary := summary
    details := standardResult.details ++ featureCases ++ scenarioCases }

/-- A detail line of the integration Java parser. -/
def javaDetailLine (line : Str) : Bool :=
  includesStr (str "Test ") line &&
    (includesStr (str " PASSED") line || includesStr (str " FAILED") line ||
      includesStr (str " SKIPPED") line)

/-- Leftmost capture of the Java test-name regex (the word-dot run after
the literal). -/
def javaNameSearch : Str → Option Str
  | [] => none
  | c :: r =>
    if (str "Test ").isPrefixOf (c :: r) then
      let run := ((c :: r).drop 5).takeWhile isWordDotC
      if run.isEmpty then javaNameSearch r else some run
    else javaNameSearch r

/-- Case synthesized from an integration Java detail line. -/
def javaCase (line : Str) : TestCase :=
  let status :=
    if includesStr (str " PASSED") line then str "passed"
    else if includesStr (str " FAILED") line then str "failed"
    else str "skipped"
  let name := match javaNameSearch line with | some n => n | none => trimStr line
  { name := name
    suite := splitBeforeDot name
    status := status
    failureMessages := if status = str "failed" then [line] else [] }

/-- IntegrationAgent parseJavaResults: the unit logic plus detail lines. -/
def int_parseJavaResults (stdout stderr : Str) (standardResult : TestRunResult) :
    TestRunResult :=
  let output := outOf stdout stderr
  let summary := javaSummary output standardResult.summary
  { standardResult with
    success := summary.failed == 0
    summary := summary
    details := standardResult.details ++
      ((splitOnNl output).filter javaDetailLine).map javaCase }

/-- A docker-compose test-looking line. -/
def dockerTestLine (line : Str) : Bool :=
  (includesStr (str "PASS") line || includesStr (str "FAIL") line ||
      includesStr (str "ERROR") line) &&
    !includesStr (str "docker") line && !includesStr (str "compose") line

/-- Capture of the anchored container-log regex (a word run at the start
of the line, whitespace, then a pipe). -/
def dockerContainerOf (line : Str) : Option Str :=
  let w := line.takeWhile isWordC
  let t := line.drop w.length
  if w.isEmpty then none
  else
    let ws2 := t.takeWhile isWsC
    let t2 := t.drop ws2.length
    if ws2.isEmpty then none
    else
      match t2 with
      | [] => none
      | c :: _ => if c = '|' then some w else none

/-- Insertion-order deduplication, the model of a JavaScript Set. -/
def dedupFirst (l : List Str) : List Str :=
  l.foldl (fun acc x => if acc.contains x then acc else acc ++ [x]) []

/-- IntegrationAgent parseDockerComposeResults. -/
def int_parseDockerComposeResults (stdout stderr : Str)
    (standardResult : TestRunResult) : TestRunResult :=
  let output := outOf stdout stderr
  let success := !includesStr (str "exited with code") output ||
    includesStr (str "exited with code 0") output
  let testLines := (splitOnNl output).filter dockerTestLine
  let total0 : Int := Int.ofNat (if testLines.length = 0 then 1 else testLines.length)
  let passed0 : Int := Int.ofNat
    (testLines.filter (fun l => includesStr (str "PASS") l && !includesStr (str "FAIL") l)).length
  let failed0 : Int := Int.ofNat
    (testLines.filter (fun l => includesStr (str "FAIL") l || includesStr (str "ERROR") l)).length
  let summary : Summary :=
    if passed0 = 0 && failed0 = 0 then
      ⟨1, if success then 1 else 0, if success then 0 else 1, standardResult.summary.skipped⟩
    else ⟨total0, passed0, failed0, standardResult.summary.skipped⟩
  let containers := dedupFirst ((splitOnNl output).filterMap dockerContainerOf)
  { standardResult with
    success := success
    summary := summary
    details := standardResult.details ++ containers.map (fun c =>
      { name := str "Container: " ++ c
        suite := str "docker-compose"
        status := if success then str "passed" else str "failed"
        failureMessages := if success then [] else [str "Container " ++ c ++ str " failed"] }) }

/-- IntegrationAgent parseIntegrationTestResults: pure format dispatch on
the project tag (the empty-repository path is handled earlier, inside
runTests); unknown tags fall to the generic parser.  The try/catch of the
source is unreachable because every branch is total. -/
def int_parseIntegrationTestResults (stdout stderr : Str) (projectType : Str) :
    TestRunResult :=
  let standardResult := initTR stdout stderr
  if projectType = str "cypress" then int_parseCypressResults stdout stderr standardResult
  else if projectType = str "playwright" then
    int_parsePlaywrightResults stdout stderr standardResult
  else if projectType = str "jest-dom" || projectType = str "jest" then
    int_parseJestResults stdout stderr standardResult
  else if projectType = str "mocha-supertest" then
    int_parseMochaResults stdout stderr standardResult
  else if projectType = str "selenium-python" || projectType = str "pytest" then
    int_parsePytestResults stdout stderr standardResult
  else if projectType = str "behave" then int_parseBehaveResults stdout stderr standardResult
  else if projectType = str "selenium-java" || projectType = str "cucumber-java" ||
      projectType = str "rest-assured" || projectType = str "maven" ||
      projectType = str "gradle" then
    int_parseJavaResults stdout stderr standardResult
  else if projectType = str "docker-compose" then
    int_parseDockerComposeResults stdout stderr standardResult
  else int_parseGenericResults stdout stderr standardResult

/-! ## Project-type detection -/

/-- UnitTestAgent detectProjectType.  The manifest branch has no
try/catch in the source, so a failing JSON decode propagates as an
exception, modelled by the error constructor; the directory reads are
wrapped in try/catch by the source and therefore modelled as total.  The
empty check comes last, after all manifest probes. -/
def unit_detectProjectType (fsx : RepoFs) : Except Str Str :=
  if fsx.fileExists (str "package.json") then
    match fsx.packageJson with
    | none => Except.error jsonParseErrorMsg
    | some pj =>
      if pj.deps.contains (str "jest") then Except.ok (str "jest")
      else if pj.deps.contains (str "mocha") then Except.ok (str "mocha")
      else if pj.deps.contains (str "karma") then Except.ok (str "karma")
      else Except.ok (str "node")
  else if fsx.fileExists (str "requirements.txt") || fsx.fileExists (str "setup.py") then
    if fsx.entries.any (fun f => includesStr (str "pytest") f) then Except.ok (str "pytest")
    else if fsx.entries.any (fun f => includesStr (str "unittest") f) then
      Except.ok (str "unittest")
    else Except.ok (str "python")
  else if fsx.fileExists (str "pom.xml") then Except.ok (str "maven")
  else if fsx.fileExists (str "build.gradle") then Except.ok (str "gradle")
  else if fsx.fileExists (str "Cargo.toml") then Except.ok (str "rust")
  else if fsx.fileExists (str "go.mod") then Except.ok (str "go")
  else if (fsx.entries.filter (fun f => f ≠ str ".git")).isEmpty then Except.ok (str "empty")
  else Except.ok (str "unknown")

/-- IntegrationAgent detectProjectType.  The empty check comes first
here; the manifest branch again has no try/catch around the JSON decode. -/
def int_detectProjectType (fsx : RepoFs) : Except Str Str :=
  if (fsx.entries.filter (fun f => f ≠ str ".git")).isEmpty then Except.ok (str "empty")
  else if fsx.fileExists (str "package.json") then
    match fsx.packageJson with
    | none => Except.error jsonParseErrorMsg
    | some pj =>
      if pj.deps.contains (str "cypress") then Except.ok (str "cypress")
      else if pj.deps.contains (str "@playwright/test") then Except.ok (str "playwright")
      else if pj.deps.contains (str "protractor") then Except.ok (str "protractor")
      else if pj.deps.contains (str "jest") &&
          (pj.deps.contains (str "@testing-library/react") ||
            pj.deps.contains (str "@testing-library/vue")) then
        Except.ok (str "jest-dom")
      else if pj.deps.contains (str "jest") then Except.ok (str "jest")
      else if pj.deps.contains (str "mocha") && pj.deps.contains (str "supertest") then
        Except.ok (str "mocha-supertest")
      else Except.ok (str "node")
  else if fsx.fileExists (str "requirements.txt") || fsx.fileExists (str "setup.py") then
    if fsx.entries.any (fun f => includesStr (str "selenium") f) then
      Except.ok (str "selenium-python")
    else if fsx.entries.any (fun f => includesStr (str "pytest") f) then
      Except.ok (str "pytest")
    else if fsx.entries.any (fun f => includesStr (str "behave") f) then
      Except.ok (str "behave")
    else Except.ok (str "python")
  else if fsx.fileExists (str "pom.xml") then
    if includesStr (str "selenium") fsx.pomXml then Except.ok (str "selenium-java")
    else if includesStr (str "cucumber") fsx.pomXml then Except.ok (str "cucumber-java")
    else if includesStr (str "rest-assured") fsx.pomXml then Except.ok (str "rest-assured")
    else Except.ok (str "maven")
  else if fsx.fileExists (str "build.gradle") then Except.ok (str "gradle")
  else if fsx.fileExists (str "docker-compose.yml") then Except.ok (str "docker-compose")
  else Except.ok (str "unknown")

/-! ## Test-command resolution -/

/-- UnitTestAgent determineTestCommand.  The node branch re-reads the
manifest inside its own try/catch, so a failing decode yields null there
instead of throwing; the python branch consults the pip-list probe. -/
def unit_determineTestCommand (fsx : RepoFs) (projectType : Str) : Option Str :=
  if projectType = str "empty" then
    some (str "echo \"Repository is empty, no tests to run\"")
  else if projectType = str "jest" then some (str "npx jest --json")
  else if projectType = str "mocha" then some (str "npx mocha --reporter json")
  else if projectType = str "karma" then
    some (str "npx karma start --single-run --reporters json")
  else if projectType = str "node" then
    match fsx.packageJson with
    | some pj => if pj.scripts.contains (str "test") then some (str "npm test") else none
    | none => none
  else if projectType = str "pytest" then some (str "python -m pytest -v")
  else if projectType = str "unittest" then some (str "python -m unittest discover")
  else if projectType = str "python" then
    if fsx.pipHasPytest then some (str "python -m pytest -v")
    else some (str "python -m unittest discover")
  else if projectType = str "maven" then some (str "mvn test")
  else if projectType = str "gradle" then some (str "./gradlew test")
  else if projectType = str "rust" then some (str "cargo test")
  else if projectType = str "go" then some (str "go test ./...")
  else none

/-- IntegrationAgent determineIntegrationTestCommand, with its
conventional-directory probes in their fixed preference order. -/
def int_determineIntegrationTestCommand (fsx : RepoFs) (projectType : Str) : Option Str :=
  if projectType = str "cypress" then some (str "npx cypress run")
  else if projectType = str "playwright" then some (str "npx playwright test")
  else if projectType = str "protractor" then
    some (str "npx protractor e2e/protractor.conf.js")
  else if projectType = str "jest-dom" then
    some (str "npx jest --testPathPattern=integration")
  else if projectType = str "jest" then
    if fsx.fileExists (str "tests/integration") then some (str "npx jest tests/integration")
    else if fsx.fileExists (str "__tests__/integration") then
      some (str "npx jest __tests__/integration")
    else if fsx.fileExists (str "integration") then some (str "npx jest integration")
    else some (str "npx jest --testPathPattern=integration")
  else if projectType = str "mocha-supertest" then
    if fsx.fileExists (str "test/integration") then some (str "npx mocha test/integration")
    else if fsx.fileExists (str "tests/integration") then
      some (str "npx mocha tests/integration")
    else some (str "npx mocha \"**/*.integration.js\"")
  else if projectType = str "node" then
    match fsx.packageJson with
    | some pj =>
      if pj.scripts.contains (str "test:integration") then some (str "npm run test:integration")
      else if pj.scripts.contains (str "integration") then some (str "npm run integration")
      else if pj.scripts.contains (str "e2e") then some (str "npm run e2e")
      else none
    | none => none
  else if projectType = str "selenium-python" then
    some (str "python -m pytest tests/integration")
  else if projectType = str "pytest" then
    if fsx.fileExists (str "tests/integration") then
      some (str "python -m pytest tests/integration")
    else if fsx.fileExists (str "integration") then some (str "python -m pytest integration")
    else some (str "python -m pytest -k \"integration\"")
  else if projectType = str "behave" then some (str "behave")
  else if projectType = str "selenium-java" || projectType = str "cucumber-java" ||
      projectType = str "rest-assured" || projectType = str "maven" then
    some (str "mvn verify")
  else if projectType = str "gradle" then some (str "./gradlew integrationTest")
  else if projectType = str "docker-compose" then
    some (str "docker-compose up --abort-on-container-exit --exit-code-from test")
  else none

/-! ## Orchestrators -/

/-- The single skipped case synthesized for an empty repository by the
integration agent. -/
def emptyIntCase : TestCase :=
  { name := str "repository-empty-check"
    suite := str "system"
    status := str "skipped"
    failureMessages := [str "Repository is empty, no integration tests to run"] }

/-- The full result synthesized by IntegrationAgent runTests for an empty
repository, before any command is determined or executed. -/
def emptyIntResult : TestRunResult :=
  { success := true
    summary := ⟨1, 0, 0, 1⟩
    details := [emptyIntCase]
    rawOutput := str "Repository is empty, no integration tests to run"
    rawError := [] }

/-- UnitTestAgent runTests: existence check (unwrapped), then inside the
try/catch (whose rethrow prefixes the failure message) detection, command
resolution, execution via exec (modelled as an oracle for the awaited
promise), and parsing.  The lifecycle notifications are fire-and-forget
logging and outside the model. -/
def unitRunTests (repoExists : Bool) (repoPath : Str) (fsx : RepoFs)
    (jp : Option JestJson) (mp : Option MochaJson) (testCommand : Option Str)
    (execResult : Except Str ExecOutcome) : Except Str TestRunResult :=
  if !repoExists then Except.error (str "Repository path does not exist: " ++ repoPath)
  else
    match unit_detectProjectType fsx with
    | Except.error e => Except.error (str "Failed to run unit tests: " ++ e)
    | Except.ok pt =>
      match (match testCommand with
             | some c => some c
             | none => unit_determineTestCommand fsx pt) with
      | none =>
        Except.error
          (str "Failed to run unit tests: Could not determine test command for project type: " ++ pt)
      | some _cmd =>
        match execResult with
        | Except.error e => Except.error (str "Failed to run unit tests: " ++ e)
        | Except.ok o => Except.ok (unit_parseTestResults jp mp o.stdout o.stderr pt)

/-- IntegrationAgent runTests: existence check (unwrapped), detection,
the empty-repository short circuit (before any command is determined or
executed), command resolution, supervised execution, and parsing; every
error inside the try/catch is rethrown with the failure prefix. -/
def integrationRunTests (repoExists : Bool) (repoPath : Str) (fsx : RepoFs)
    (testCommand : Option Str) (timeoutMs : Nat) (outChunks errChunks : List Str)
    (ev : ProcEvent) : Except Str TestRunResult :=
  if !repoExists then Except.error (str "Repository path does not exist: " ++ repoPath)
  else
    match int_detectProjectType fsx with
    | Except.error e => Except.error (str "Failed to run integration tests: " ++ e)
    | Except.ok pt =>
      if pt = str "empty" then Except.ok emptyIntResult
      else
        match (match testCommand with
               | some c => some c
               | none => int_determineIntegrationTestCommand fsx pt) with
        | none =>
          Except.error
            (str "Failed to run integration tests: Could not determine integration test command for project type: " ++ pt)
        | some cmd =>
          match int_executeCommand cmd timeoutMs outChunks errChunks ev with
          | Except.error e => Except.error (str "Failed to run integration tests: " ++ e)
          | Except.ok o => Except.ok (int_parseIntegrationTestResults o.stdout o.stderr pt)

/-! ## Helper lemmas -/

/-- The enumeration invariant of the canonical schema. -/
abbrev summaryAddsUp (r : TestRunResult) : Prop :=
  r.summary.total = r.summary.passed + r.summary.failed + r.summary.skipped

/-- Folding append over chunk lists is length additive. -/
theorem foldl_append_length (l : List Str) (a : Str) :
    (l.foldl (fun x c => x ++ c) a).length = a.length + (l.map List.length).sum := by
  induction l generalizing a with
  | nil => simp
  | cons h t ih => simp [List.foldl, ih, List.length_append]; omega

/-- The buffered output of the runner is exactly the concatenation of the
received chunks: nothing is dropped and nothing is truncated. -/
theorem concatChunks_length (cs : List Str) :
    (concatChunks cs).length = (cs.map List.length).sum := by
  simpa using foldl_append_length cs []

/-- The line count the generic parsers turn into a total (at least one
test is always assumed). -/
def genTotal (kw : Str → Bool) (s e : Str) : Int :=
  Int.ofNat
    (if ((splitOnNl (outOf s e)).filter (genericHit kw)).length = 0 then 1
     else ((splitOnNl (outOf s e)).filter (genericHit kw)).length)

/-- Summary shape of a generic parse over the fresh base result. -/
theorem genericParseWith_summary (kw : Str → Bool) (s e : Str) :
    (genericParseWith kw s e (initTR s e)).summary =
      (if (genericParseWith kw s e (initTR s e)).success then
        (⟨genTotal kw s e, genTotal kw s e, 0, 0⟩ : Summary)
      else ⟨genTotal kw s e, genTotal kw s e - 1, 1, 0⟩) := rfl

/-- The generic total is positive. -/
theorem genTotal_pos (kw : Str → Bool) (s e : Str) : 1 ≤ genTotal kw s e := by
  unfold genTotal
  split
  · decide
  · rename_i h
    exact Int.ofNat_le.mpr (Nat.one_le_iff_ne_zero.mpr h)

/-- The degraded-mode bookkeeping of the generic parsers over the fresh
base result: no skipped cases, a positive total, passed and failed
partition the total, and the failed count mirrors the success flag. -/
theorem generic_fallback_props (kw : Str → Bool) (s e : Str) :
    (genericParseWith kw s e (initTR s e)).summary.skipped = 0 ∧
    1 ≤ (genericParseWith kw s e (initTR s e)).summary.total ∧
    (genericParseWith kw s e (initTR s e)).summary.passed +
        (genericParseWith kw s e (initTR s e)).summary.failed =
      (genericParseWith kw s e (initTR s e)).summary.total ∧
    (genericParseWith kw s e (initTR s e)).summary.failed =
      (if (genericParseWith kw s e (initTR s e)).success then 0 else 1) := by
  have hpos := genTotal_pos kw s e
  refine ⟨?_, ?_, ?_, ?_⟩ <;>
    cases hS : (genericParseWith kw s e (initTR s e)).success <;>
      simp [genericParseWith_summary, hS] <;>
      omega

/-! ## Claim theorems -/

/-- Claim C2 (confirmed): the unit-agent result parser never throws (it
is a total function of its inputs in this embedding, mirroring the
catch-all of parseTestResults), and when the Jest or Mocha format parser
cannot extract structure because its JSON decode fails, the dispatched
result is exactly the generic-parser result (with the empty stderr
argument the source passes on that path), not a propagated failure. -/
theorem c2_jest_mocha_fallback (s e : Str) :
    unit_parseTestResults none none s e (str "jest") =
      unit_parseGenericResults s [] (initTR s e) ∧
    unit_parseTestResults none none s e (str "mocha") =
      unit_parseGenericResults s [] (initTR s e) :=
  ⟨rfl, rfl⟩

/-- Claim C3 (amended): when the timeout timer is the settling event, the
runner kills the process and rejects with an error naming the timeout and
the command; the rejection is independent of the buffered output (the
buffers are discarded, not preserved in any returned outcome), and no
outcome carrying a timedOut flag or null exit code exists. -/
theorem c3_amended_theorem (cmd : Str) (timeoutMs : Nat) (outChunks errChunks : List Str) :
    int_executeCommand cmd timeoutMs outChunks errChunks ProcEvent.timeout =
      Except.error (str "Command timed out after " ++ natToStr timeoutMs ++ str "ms: " ++ cmd) ∧
    int_executeCommand cmd timeoutMs outChunks errChunks ProcEvent.timeout =
      int_executeCommand cmd timeoutMs [] [] ProcEvent.timeout :=
  ⟨rfl, rfl⟩

/-- Claim C3 counterexample: for a command that exceeds its timeout, the
runner rejects with an error; it does not return an outcome at all, so in
particular no outcome with a true timedOut flag, a null exit code and the
preserved buffers is returned, contrary to the claim. -/
theorem c3_counterexample :
    int_executeCommand (str "sleep 100") 1000 [str "partial output"] [] ProcEvent.timeout =
      Except.error (str "Command timed out after 1000ms: sleep 100") := rfl

/-- Claim C4 (amended): the runner resolves with an outcome exactly when
the process closes with exit code zero; a non-zero exit code and a signal
termination (null code) both reject with an error naming the code, and a
spawn error rejects with the spawn error itself. -/
theorem c4_amended_theorem (cmd : Str) (timeoutMs : Nat) (outChunks errChunks : List Str)
    (ev : ProcEvent) :
    (∃ o, int_executeCommand cmd timeoutMs outChunks errChunks ev = Except.ok o) ↔
      ev = ProcEvent.close (some 0) := by
  cases ev with
  | timeout => simp [int_executeCommand]
  | close code =>
    by_cases h : code = some 0 <;> simp [int_executeCommand, h]
  | spawnError m => simp [int_executeCommand]

/-- Claim C4 counterexample: a process that starts successfully and exits
with code one makes the runner reject with an exception-style error, not
report the status inside a returned outcome, contrary to the claim. -/
theorem c4_counterexample :
    int_executeCommand (str "npm test") 1000 [str "out"] [str "err"]
        (ProcEvent.close (some 1)) =
      Except.error (str "Command failed with exit code 1: npm test") := rfl

/-- Claim C5 (code bug): a repository whose package manifest exists but
whose contents do not decode makes both detection routines throw the
JSON.parse error instead of treating the manifest as absent and falling
through to the next check, contradicting the never-throws detection
contract of the spec (the sibling command-resolution code of the same
file does wrap the identical decode in a try/catch). -/
theorem c5_theorem :
    unit_detectProjectType
        ⟨[str "package.json"], fun f => decide (f = str "package.json"), none, [], false⟩ =
      Except.error jsonParseErrorMsg ∧
    int_detectProjectType
        ⟨[str "package.json"], fun f => decide (f = str "package.json"), none, [], false⟩ =
      Except.error jsonParseErrorMsg :=
  ⟨rfl, rfl⟩

/-- Claim C7 (amended): for both cited integration parsers, success is
determined solely by the token heuristic on the combined output (PASS
present and FAIL absent for the Jest parser, the run-finished banner
absent for the Cypress parser); the extracted summary counts never
influence success, so when the two disagree the token heuristic, not the
summary, takes precedence. -/
theorem c7_amended_theorem (s e : Str) :
    (int_parseJestResults s e (initTR s e)).success =
      (includesStr (str "PASS") (outOf s e) && !includesStr (str "FAIL") (outOf s e)) ∧
    (int_parseCypressResults s e (initTR s e)).success =
      !includesStr (str "(Run Finished)") (outOf s e) :=
  ⟨rfl, rfl⟩

/-- Claim C7 counterexample: Jest text output containing the token PASS
together with a summary line reporting one failure yields success true
while summary.failed is one: the summary does not take precedence over
the token heuristic, contrary to the claim. -/
theorem c7_counterexample :
    (int_parseJestResults (str "PASS\nTests: 1 passed, 1 failed, 2 total") []
        (initTR (str "PASS\nTests: 1 passed, 1 failed, 2 total") [])).success = true ∧
    (int_parseJestResults (str "PASS\nTests: 1 passed, 1 failed, 2 total") []
        (initTR (str "PASS\nTests: 1 passed, 1 failed, 2 total") [])).summary.failed = 1 :=
  ⟨by decide, by decide⟩

/-- Claim C8 (confirmed): on the summary line reporting three passed, one
failed and four total (with empty stderr), the integration Jest parser
returns exactly total four, passed three, failed one, skipped zero, and
success false. -/
theorem c8_theorem :
    (int_parseJestResults (str "Tests: 3 passed, 1 failed, 4 total") []
        (initTR (str "Tests: 3 passed, 1 failed, 4 total") [])).summary =
      ⟨4, 3, 1, 0⟩ ∧
    (int_parseJestResults (str "Tests: 3 passed, 1 failed, 4 total") []
        (initTR (str "Tests: 3 passed, 1 failed, 4 total") [])).success = false :=
  ⟨by decide, by decide⟩

/-- Claim C9 (amended): the integration runner buffers process output
without any maximum: when the process closes successfully the resolved
outcome carries the full concatenation of every received chunk, whose
length is the sum of the chunk lengths, and no truncation indicator
exists anywhere in the outcome. -/
theorem c9_amended_theorem (cmd : Str) (timeoutMs : Nat) (outChunks errChunks : List Str) :
    int_executeCommand cmd timeoutMs outChunks errChunks (ProcEvent.close (some 0)) =
      Except.ok ⟨concatChunks outChunks, concatChunks errChunks⟩ ∧
    (concatChunks outChunks).length = (outChunks.map List.length).sum :=
  ⟨rfl, concatChunks_length outChunks⟩

/-- Claim C9 counterexample: a single chunk one byte larger than the ten
mebibyte maximum configured for the unit agent flows through the
integration runner unchanged into the outcome and hence into the
rawOutput field of the base result, whose length exceeds that maximum,
and no truncation is recorded, contrary to the claim. -/
theorem c9_counterexample :
    int_executeCommand (str "npm test") 600000 [List.replicate 10485761 'a'] []
        (ProcEvent.close (some 0)) =
      Except.ok ⟨List.replicate 10485761 'a', []⟩ ∧
    10485760 < (initTR (List.replicate 10485761 'a') []).rawOutput.length := by
  constructor
  · rfl
  · have h : (initTR (List.replicate 10485761 'a') []).rawOutput =
        List.replicate 10485761 'a' := rfl
    rw [h, List.length_replicate]
    omega

/-- Claim C10 (confirmed): both generic fallback parsers always return a
result with no skipped cases, a total of at least one, passed and failed
summing to the total, and a failed count of zero exactly when success
holds (so one when it does not, with passed equal to total minus one). -/
theorem c10_theorem (s e : Str) :
    ((unit_parseGenericResults s e (initTR s e)).summary.skipped = 0 ∧
      1 ≤ (unit_parseGenericResults s e (initTR s e)).summary.total ∧
      (unit_parseGenericResults s e (initTR s e)).summary.passed +
          (unit_parseGenericResults s e (initTR s e)).summary.failed =
        (unit_parseGenericResults s e (initTR s e)).summary.total ∧
      (unit_parseGenericResults s e (initTR s e)).summary.failed =
        (if (unit_parseGenericResults s e (initTR s e)).success then 0 else 1)) ∧
    ((int_parseGenericResults s e (initTR s e)).summary.skipped = 0 ∧
      1 ≤ (int_parseGenericResults s e (initTR s e)).summary.total ∧
      (int_parseGenericResults s e (initTR s e)).summary.passed +
          (int_parseGenericResults s e (initTR s e)).summary.failed =
        (int_parseGenericResults s e (initTR s e)).summary.total ∧
      (int_parseGenericResults s e (initTR s e)).summary.failed =
        (if (int_parseGenericResults s e (initTR s e)).success then 0 else 1)) :=
  ⟨generic_fallback_props unitGenericKw s e, generic_fallback_props intGenericKw s e⟩

/-- Claim C1 counterexample: pytest output whose collected-items line
disagrees with its count lines (two collected, one passed, nothing else)
makes the pytest parser return total two but passed one, failed zero and
skipped zero, so the equation fails for this input text, contrary to the
claim that it holds for every input. -/
theorem c1_counterexample :
    ¬ summaryAddsUp (unit_parsePythonResults (str "collected 2 items\n1 passed") []
        (initTR (str "collected 2 items\n1 passed") [])) := by decide

/-- Claim C1 (amended): for every input text, the parsers that compute
the total as the sum of the three counts (the integration Mocha and
Cypress parsers) satisfy the invariant unconditionally; the pytest
parser and the integration Jest parser, which take the total from a
match independent of the other counts, satisfy the invariant if and only
if the numbers reported by the input are consistent, that is, the
matched total equals the sum of the independently matched passed, failed
and skipped counts (missing matches counting as zero). -/
theorem c1_amended_theorem (s e : Str) :
    summaryAddsUp (int_parseMochaResults s e (initTR s e)) ∧
    summaryAddsUp (int_parseCypressResults s e (initTR s e)) ∧
    (summaryAddsUp (unit_parsePythonResults s e (initTR s e)) ↔
      pyTotal (outOf s e) =
        pyPassed (outOf s e) + pyFailed (outOf s e) + pySkipped (outOf s e)) ∧
    (summaryAddsUp (int_parseJestResults s e (initTR s e)) ↔
      jestTotalD (outOf s e) =
        jestPassedD (outOf s e) + jestFailedD (outOf s e) + jestSkippedD (outOf s e)) := by
  refine ⟨rfl, ?_, Iff.rfl, ?_⟩
  · simp only [summaryAddsUp, int_parseCypressResults]
    split
    · rfl
    · rfl
  · have hsum : (int_parseJestResults s e (initTR s e)).summary =
        ⟨jestTotalD (outOf s e), jestPassedD (outOf s e), jestFailedD (outOf s e),
          jestSkippedD (outOf s e)⟩ := by
      simp only [int_parseJestResults, jestTotalD, jestPassedD, jestFailedD,
        jestSkippedD, optNumInt]
      rcases h1 : jestSummary (outOf s e) with _ | ⟨a, b, c⟩ <;>
        rcases h2 : findToks [Tok.num, Tok.lit (str " skipped")] (outOf s e)
          with _ | ⟨_ | ⟨k, ks⟩⟩ <;>
        rfl
    unfold summaryAddsUp
    rw [hsum]

/-- Claim C6 counterexample: for a repository containing only the .git
entry, the unit orchestrator resolves a real command (the echo no-op) and
executes it, and the returned result embeds the executed stdout in its
rawOutput: two runs whose execution oracles return different stdout give
different results, so the empty-repository path of the unit orchestrator
is neither detected before command execution nor bypassing parsing,
contrary to the claim. -/
theorem c6_counterexample :
    unit_determineTestCommand ⟨[str ".git"], fun _ => false, none, [], false⟩ (str "empty") =
      some (str "echo \"Repository is empty, no tests to run\"") ∧
    unitRunTests true [] ⟨[str ".git"], fun _ => false, none, [], false⟩ none none none
        (Except.ok ⟨str "hello", []⟩) =
      Except.ok { success := true, summary := ⟨1, 0, 0, 1⟩, details := [emptyUnitCase],
                  rawOutput := str "hello", rawError := [] } ∧
    unitRunTests true [] ⟨[str ".git"], fun _ => false, none, [], false⟩ none none none
        (Except.ok ⟨str "world", []⟩) =
      Except.ok { success := true, summary := ⟨1, 0, 0, 1⟩, details := [emptyUnitCase],
                  rawOutput := str "world", rawError := [] } ∧
    ({ success := true, summary := ⟨1, 0, 0, 1⟩, details := [emptyUnitCase],
        rawOutput := str "hello", rawError := [] } : TestRunResult) ≠
      { success := true, summary := ⟨1, 0, 0, 1⟩, details := [emptyUnitCase],
        rawOutput := str "world", rawError := [] } :=
  ⟨rfl, rfl, rfl, by decide⟩

/-- Claim C6 (amended): for a repository whose listing holds nothing but
the .git entry (with an existence predicate consistent with the listing),
the integration orchestrator returns the synthesized empty result with
success true and summary one total, zero passed, zero failed, one
skipped, independently of any supplied command, timeout, buffered chunks
or settlement event (the short circuit happens before command resolution
and execution and bypasses parsing); the unit orchestrator produces the
same success, summary and single skipped detail, but only after
resolving and executing its no-op echo command, through the dedicated
empty branch of its parser, with the executed stdout and stderr as the
raw fields of the result. -/
theorem c6_amended_theorem (fsx : RepoFs) (repoPath : Str) (tci tcu : Option Str)
    (timeoutMs : Nat) (outChunks errChunks : List Str) (ev : ProcEvent)
    (jp : Option JestJson) (mp : Option MochaJson) (out err : Str)
    (hent : fsx.entries.filter (fun f => f ≠ str ".git") = [])
    (hfs : ∀ f, fsx.fileExists f = true → f ∈ fsx.entries) :
    integrationRunTests true repoPath fsx tci timeoutMs outChunks errChunks ev =
      Except.ok emptyIntResult ∧
    unitRunTests true repoPath fsx jp mp tcu (Except.ok ⟨out, err⟩) =
      Except.ok { success := true, summary := ⟨1, 0, 0, 1⟩, details := [emptyUnitCase],
                  rawOutput := out, rawError := err } := by
  have hmem : ∀ f, f ∈ fsx.entries → f = str ".git" := by
    intro f hf
    by_contra hne
    have hmemf : f ∈ fsx.entries.filter (fun g => g ≠ str ".git") :=
      List.mem_filter.mpr ⟨hf, by simpa using hne⟩
    rw [hent] at hmemf
    exact absurd hmemf (List.not_mem_nil f)
  have hpe : ∀ nm, nm ≠ str ".git" → fsx.fileExists nm = false := by
    intro nm hnm
    cases h : fsx.fileExists nm with
    | false => rfl
    | true => exact absurd (hmem nm (hfs nm h)) hnm
  have hdetI : int_detectProjectType fsx = Except.ok (str "empty") := by
    simp only [int_detectProjectType, hent]
    rfl
  have hdetU : unit_detectProjectType fsx = Except.ok (str "empty") := by
    simp only [unit_detectProjectType, hpe (str "package.json") (by decide),
      hpe (str "requirements.txt") (by decide), hpe (str "setup.py") (by decide),
      hpe (str "pom.xml") (by decide), hpe (str "build.gradle") (by decide),
      hpe (str "Cargo.toml") (by decide), hpe (str "go.mod") (by decide), hent]
    rfl
  constructor
  · simp only [integrationRunTests, hdetI]
    rfl
  · cases tcu with
    | none =>
      simp only [unitRunTests, hdetU]
      rfl
    | some c =>
      simp only [unitRunTests, hdetU]
      rfl

/-- Claim C6 witness: on the concrete repository listing holding only the
.git entry, both hypotheses hold and both orchestrator conclusions follow
at a concrete command, timeout, chunk list, settlement event and
execution outcome. -/
theorem c6_amended_witness :
    (([str ".git"] : List Str).filter (fun f => f ≠ str ".git") = []) ∧
    (integrationRunTests true [] ⟨[str ".git"], fun _ => false, none, [], false⟩ none 0 [] []
        ProcEvent.timeout = Except.ok emptyIntResult ∧
      unitRunTests true [] ⟨[str ".git"], fun _ => false, none, [], false⟩ none none none
          (Except.ok ⟨str "ok", []⟩) =
        Except.ok { success := true, summary := ⟨1, 0, 0, 1⟩, details := [emptyUnitCase],
                    rawOutput := str "ok", rawError := [] }) :=
  ⟨by decide,
    c6_amended_theorem ⟨[str ".git"], fun _ => false, none, [], false⟩ [] none none 0 [] []
      ProcEvent.timeout none none (str "ok") [] (by decide)
      (fun f h => absurd h Bool.false_ne_true)⟩
